import Mathlib

/-!
Shallow embedding of the barcode-scanner session manager (`src/src/App.tsx`)
for verification of the spec's claims.

The React component `App` keeps its state in `useState` hooks; we mirror those
hooks as fields of `AppState`. Event handlers (`loadCameras`, `startScanning`,
the decode callback, `stopScanning`, `copyAll`, `clearAll`, `removeCode`)
become pure state-transition functions. Browser and library collaborators
(`getUserMedia`, device enumeration, the ZXing decode loop, the clipboard) are
oracles: their outcomes are passed in as explicit arguments, following the
collaborator interfaces of the spec, section 6.

Two semantic points of the source are modelled explicitly:
- JavaScript closure capture: the decode callback created inside
  `startScanning` closes over the `scannedCodes` value of the render in which
  the handler ran, so every duplicate check inside the callback reads that
  session-start snapshot, not the live list. The snapshot is the `snapshot`
  field of `SessionClosure`.
- `MediaStream` object identity: streams live in a ghost heap
  (`AppState.streams`) keyed by a stream id; `track.stop()` flips the track's
  liveness in the heap, and detaching a stream from the video element does not
  stop its tracks.
-/

namespace BarcodeScanner

/-- JavaScript `String.prototype.toLowerCase` (ASCII-faithful). -/
def jsToLowerCase (s : String) : String := String.mk (s.data.map Char.toLower)

/-- JavaScript `String.prototype.includes`: substring containment test. -/
def strIncludes (s sub : String) : Bool :=
  (List.range (s.data.length + 1)).any (fun i => sub.data.isPrefixOf (s.data.drop i))

/-- JavaScript `Array.prototype.join(sep)`. -/
def joinWith (sep : String) : List String → String
  | [] => ""
  | a :: as => as.foldl (fun acc b => acc ++ sep ++ b) a

/-- `interface ScannedCode` of `App.tsx`; `timestamp` is milliseconds since epoch. -/
structure ScannedCode where
  id : String
  text : String
  timestamp : Nat
deriving DecidableEq

/-- `interface CameraDevice` of `App.tsx`. -/
structure CameraDevice where
  deviceId : String
  label : String
deriving DecidableEq

/-- A raw enumerated device descriptor as returned by `listVideoInputDevices`. -/
structure RawDevice where
  deviceId : String
  label : String
deriving DecidableEq

/-- A `MediaStreamTrack`: only its liveness matters to the claims. -/
structure Track where
  live : Bool
deriving DecidableEq

/-- A `MediaStream`: an identity (`sid`) plus its tracks. -/
structure Stream where
  sid : Nat
  tracks : List Track
deriving DecidableEq

/-- The mutable variables captured by the decode callback's closure in
`startScanning`: `lastScanTime` and `scanAttempts` are the `let`-variables of
the session, and `snapshot` is the `scannedCodes` value captured at
closure-creation time (the stale-closure capture flagged by the spec). -/
structure SessionClosure where
  snapshot : List ScannedCode
  lastScanTime : Nat
  scanAttempts : Nat
deriving DecidableEq

/-- The component state of `App` (its `useState` hooks), together with the
ghost stream heap, the attached video source, the ZXing reader's decode-loop
flag, the live session closure, and a flag recording that a `setTimeout` to
restore the steady ready status is pending. -/
structure AppState where
  scannedCodes : List ScannedCode
  isScanning : Bool
  error : Option String
  availableCameras : List CameraDevice
  selectedCameraId : String
  isLoading : Bool
  scanStatus : String
  streams : List Stream
  videoSrcObject : Option Nat
  readerDecoding : Bool
  session : Option SessionClosure
  pendingStatusRevert : Bool
deriving DecidableEq

/-- `track.stop()` applied to every track of a stream. -/
def stopStream (s : Stream) : Stream :=
  { s with tracks := s.tracks.map (fun _ => { live := false }) }

/-- Stop every track of the stream with the given id in the heap. -/
def stopStreamInHeap (heap : List Stream) (sid : Nat) : List Stream :=
  heap.map (fun s => if s.sid = sid then stopStream s else s)

/-- A stream is live when some track of it is live. -/
def streamLive (s : Stream) : Bool := s.tracks.any (fun t => t.live)

/-- Number of streams in the heap that still have a live track. -/
def liveStreamCount (st : AppState) : Nat := (st.streams.filter streamLive).length

/-- `copyAll`: `scannedCodes.map(code => code.text).join('\n')`. The spec calls
this value `exportText()`. -/
def exportText (codes : List ScannedCode) : String :=
  joinWith "\n" (codes.map (fun code => code.text))

/-- The observable effects of one `copyAll` invocation. -/
structure CopyEffect where
  clipboardWrite : Option String
  notice : Option String
deriving DecidableEq

/-- `copyAll` of `App.tsx`: returns immediately when the list is empty;
otherwise writes the joined text via the clipboard API, falling back to
`document.execCommand('copy')`, and alerts the outcome. The two oracle booleans
are the success of the clipboard API and of the legacy fallback. -/
def copyAll (codes : List ScannedCode) (clipboardOk execCommandOk : Bool) : CopyEffect :=
  if codes.length = 0 then { clipboardWrite := none, notice := none }
  else
    let allText := exportText codes
    if clipboardOk then
      { clipboardWrite := some allText,
        notice := some ("Copied " ++ toString codes.length ++ " barcode(s) to clipboard!") }
    else if execCommandOk then
      { clipboardWrite := some allText,
        notice := some ("Copied " ++ toString codes.length ++ " barcode(s) to clipboard!") }
    else
      { clipboardWrite := none, notice := some "Failed to copy to clipboard" }

/-- `copyAll` as a step on the component state: it calls no state setter, so
the state is returned unchanged alongside the effects. -/
def copyAllStep (st : AppState) (clipboardOk execCommandOk : Bool) : AppState × CopyEffect :=
  (st, copyAll st.scannedCodes clipboardOk execCommandOk)

/-- `clearAll` of `App.tsx`. -/
def clearAll (st : AppState) : AppState := { st with scannedCodes := [] }

/-- `removeCode` of `App.tsx`. -/
def removeCode (st : AppState) (codeId : String) : AppState :=
  { st with scannedCodes := st.scannedCodes.filter (fun code => code.id ≠ codeId) }

/-- Label synthesis of `loadCameras`:
`label: device.label || Camera (devices.indexOf(device) + 1)` (JavaScript `||`
treats the empty string as falsy; `indexOf` is the device's position). -/
def mkCameraList (devices : List RawDevice) : List CameraDevice :=
  devices.enum.map (fun p =>
    { deviceId := p.2.deviceId,
      label := if p.2.label = "" then "Camera " ++ toString (p.1 + 1) else p.2.label })

/-- The back-camera label heuristic of `loadCameras`:
`label.toLowerCase()` contains "back", "rear" or "environment". -/
def labelMatchesBack (label : String) : Bool :=
  strIncludes (jsToLowerCase label) "back" ||
  strIncludes (jsToLowerCase label) "rear" ||
  strIncludes (jsToLowerCase label) "environment"

/-- Preferred-device selection of `loadCameras` (lines 110-123 of `App.tsx`):
start from `cameraList[0]`, override with the first back/rear/environment
match, else with the last device when more than one exists. Returns `none`
only on the empty list, which `loadCameras` rules out beforehand. -/
def selectPreferred : List CameraDevice → Option CameraDevice
  | [] => none
  | first :: rest =>
    match (first :: rest).find? (fun cam => labelMatchesBack cam.label) with
    | some backCamera => some backCamera
    | none =>
      if (first :: rest).length > 1 then some ((first :: rest).getLastD first)
      else some first

/-- `loadCameras` of `App.tsx`. Oracles: `permStream` is the probe stream
granted by `getUserMedia` for the permission request (`none` = permission
denied), `devices` is the result of `listVideoInputDevices`. The probe stream
is stopped immediately; the `finally` block clears `isLoading` on every path.
The catch branch records the thrown message in `error` and leaves the camera
list, the scan records and the scanning flag untouched. -/
def loadCameras (st0 : AppState) (permStream : Option Stream) (devices : List RawDevice) :
    AppState :=
  let st := { st0 with isLoading := true, error := none }
  match permStream with
  | none =>
    { st with
      error := some "Camera permission denied. Please allow camera access and try again.",
      isLoading := false }
  | some probe =>
    let st := { st with streams := st.streams ++ [stopStream probe] }
    if devices.length = 0 then
      { st with
        error := some "No camera devices found. Please connect a camera and refresh the page.",
        isLoading := false }
    else
      let cameraList := mkCameraList devices
      match selectPreferred cameraList with
      | some preferredCamera =>
        { st with
          availableCameras := cameraList,
          selectedCameraId := preferredCamera.deviceId,
          isLoading := false }
      | none =>
        -- unreachable: `cameraList` is nonempty because `devices` is
        { st with isLoading := false }

/-- The cooldown constant of the decode callback (`scanCooldown = 1500` ms). -/
def scanCooldown : Nat := 1500

/-- Record-id generation of the decode callback:
`Date.now().toString() + Math.random().toString(36).substr(2, 9)`; the random
fragment is an oracle input. -/
def mkId (now : Nat) (rand : String) : String := toString now ++ rand

/-- The `if (result)` branch of the decode callback (lines 231-269 of
`App.tsx`), with `sess` the closure state after the `scanAttempts` increment.
Both duplicate checks read `sess.snapshot`, the `scannedCodes` value captured
when the callback was created. -/
def handleFoundResult (st : AppState) (sess : SessionClosure) (text : String)
    (now : Nat) (rand : String) : AppState :=
  if now - sess.lastScanTime < scanCooldown ∧
      sess.snapshot.any (fun code => code.text = text) then
    st
  else
    let sess1 := { sess with lastScanTime := now }
    let st1 := { st with session := some sess1, scanStatus := "Barcode detected!" }
    if sess1.snapshot.any (fun code => code.text = text) then
      { st1 with scanStatus := "Already scanned", pendingStatusRevert := true }
    else
      { st1 with
        scannedCodes :=
          st1.scannedCodes ++ [{ id := mkId now rand, text := text, timestamp := now }],
        pendingStatusRevert := true }

/-- The not-found filter of the decode callback's error branch: the error name
contains one of the four expected "nothing decoded" markers. -/
def isNotFoundName (name : String) : Bool :=
  strIncludes name "NotFoundError" || strIncludes name "No QR Code" ||
  strIncludes name "NotFoundException" || strIncludes name "No MultiFormat Readers"

/-- One invocation of the decode callback passed to `decodeFromVideoDevice`.
`result` is the decoded text (if a symbol was found), `errName` the `name` of
the error argument (if one was passed; a missing `name` property behaves like
the empty string under the JavaScript truthiness guard). The returned boolean
reports whether the error branch emitted a log line. The callback only runs
while the reader's decode loop is active; after `reset()` it is never invoked,
which we model as the identity. -/
def decodeCallback (st : AppState) (result : Option String) (errName : Option String)
    (now : Nat) (rand : String) : AppState × Bool :=
  if st.readerDecoding = false then (st, false)
  else
    match st.session with
    | none => (st, false)
    | some sess0 =>
      let sess := { sess0 with scanAttempts := sess0.scanAttempts + 1 }
      let st1 := { st with session := some sess }
      let st2 :=
        match result with
        | some text => handleFoundResult st1 sess text now rand
        | none => st1
      let logged :=
        match errName with
        | some name =>
          (name != "") && !(isNotFoundName name) && (sess.scanAttempts % 50 == 0)
        | none => false
      (st2, logged)

/-- The `setTimeout` scheduled by the decode callback fires: the status reverts
to the steady ready message. -/
def statusRevertFires (st : AppState) : AppState :=
  if st.pendingStatusRevert then
    { st with scanStatus := "Ready - Point camera at barcode", pendingStatusRevert := false }
  else st

/-- `codeReaderRef.current.reset()` in `stopScanning`: ends the decode loop. -/
def endDecodeStep (st : AppState) : AppState := { st with readerDecoding := false }

/-- The stream-release block of `stopScanning`: stop every track of the stream
attached to the video element and detach it. -/
def releaseStreamStep (st : AppState) : AppState :=
  match st.videoSrcObject with
  | some sid =>
    { st with streams := stopStreamInHeap st.streams sid, videoSrcObject := none }
  | none => st

/-- `stopScanning` of `App.tsx`: reset the reader, then stop and detach the
video stream, then clear the scanning flag and status. -/
def stopScanning (st : AppState) : AppState :=
  let st1 := endDecodeStep st
  let st2 := releaseStreamStep st1
  { st2 with isScanning := false, scanStatus := "" }

/-- The body of `startScanning` up to its `try`/`catch` boundary; an
`Except.error` carries the thrown message together with the state at the throw
point. `st0` doubles as the closure environment of the handler: the reads of
`availableCameras`, `selectedCameraId` and `scannedCodes` inside the body use
the values captured at the render that created the handler, so the re-check
after the in-body `loadCameras` call still sees the entry value. Oracles:
`permStream`/`devices` feed the conditional camera reload, `fullStream` is the
outcome of the full-constraint `getUserMedia` and `fallbackStream` of the
minimal-constraint retry. The best-effort autofocus `applyConstraints` attempt
only touches track focus settings and is omitted: it changes no session state
and no track liveness. -/
def startScanningBody (st0 : AppState) (permStream : Option Stream)
    (devices : List RawDevice) (fullStream fallbackStream : Option Stream) :
    Except (String × AppState) AppState :=
  let st := { st0 with error := none, isScanning := true, scanStatus := "Starting camera..." }
  if st0.availableCameras.length = 0 then
    -- reload cameras, then re-check the (stale) closure value, which is still empty
    let st1 := loadCameras st permStream devices
    Except.error ("No cameras available. Please check your camera connection.", st1)
  else
    let deviceId :=
      if st0.selectedCameraId = "" then
        (match st0.availableCameras.head? with
         | some cam => cam.deviceId
         | none => "")
      else st0.selectedCameraId
    if deviceId = "" then Except.error ("No camera device selected", st)
    else
      let attach (stream : Stream) : AppState :=
        -- video.srcObject = stream: the previous stream is replaced, not stopped
        let st2 := { st with streams := st.streams ++ [stream], videoSrcObject := some stream.sid }
        -- after the readiness wait: steady status, fresh closure state, decode loop begins
        { st2 with
          scanStatus := "Ready - Point camera at barcode",
          session := some { snapshot := st0.scannedCodes, lastScanTime := 0, scanAttempts := 0 },
          readerDecoding := true }
      match fullStream with
      | some stream => Except.ok (attach stream)
      | none =>
        match fallbackStream with
        | some stream => Except.ok (attach stream)
        | none =>
          -- both getUserMedia attempts rejected; the browser's message is
          -- environment-dependent, the catch-all text stands in for it
          Except.error ("Failed to start camera", st)

/-- `startScanning` of `App.tsx`: the body with its `catch` branch, which
records the message and clears the scanning flag and status. -/
def startScanning (st0 : AppState) (permStream : Option Stream) (devices : List RawDevice)
    (fullStream fallbackStream : Option Stream) : AppState :=
  match startScanningBody st0 permStream devices fullStream fallbackStream with
  | Except.ok st => st
  | Except.error (msg, st) =>
    { st with error := some msg, isScanning := false, scanStatus := "" }

/-! Concrete scenario states used across the theorems below. -/

/-- The component's initial state (the `useState` initial values). -/
def initialState : AppState :=
  { scannedCodes := [], isScanning := false, error := none, availableCameras := [],
    selectedCameraId := "", isLoading := false, scanStatus := "", streams := [],
    videoSrcObject := none, readerDecoding := false, session := none,
    pendingStatusRevert := false }

/-- State after a successful camera discovery found one rear camera. -/
def oneCameraState : AppState :=
  { initialState with
    availableCameras := [{ deviceId := "dev1", label := "Back Camera" }],
    selectedCameraId := "dev1" }

/-- A live one-track stream granted by the first `getUserMedia` call. -/
def streamA : Stream := { sid := 0, tracks := [{ live := true }] }

/-- A live one-track stream granted by a later `getUserMedia` call. -/
def streamB : Stream := { sid := 1, tracks := [{ live := true }] }

/-- Scanning state: `startScanning` succeeded on `oneCameraState` with
stream `streamA`; the session snapshot is the empty record list. -/
def scanningState : AppState := startScanning oneCameraState none [] (some streamA) none

/-! Helper lemmas about stream teardown. -/

/-- Mapping every track to a stopped one leaves no live track. -/
theorem any_live_map_false (ts : List Track) :
    (ts.map (fun _ => ({ live := false } : Track))).any (fun t => t.live) = false := by
  induction ts with
  | nil => rfl
  | cons t ts ih => simp [ih]

/-- A fully stopped stream is not live. -/
theorem streamLive_stopStream (s : Stream) : streamLive (stopStream s) = false := by
  cases s with
  | mk sid tracks => simp [streamLive, stopStream, any_live_map_false tracks]

/-- After stopping the stream `sid` in a heap whose other streams are already
dead, every stream of the heap is dead. -/
theorem mem_stopHeap_dead (heap : List Stream) (sid : Nat)
    (h : ∀ s ∈ heap, s.sid ≠ sid → streamLive s = false) :
    ∀ s ∈ stopStreamInHeap heap sid, streamLive s = false := by
  intro s hs
  rcases List.mem_map.1 hs with ⟨t, ht, rfl⟩
  by_cases hsid : t.sid = sid
  · simpa [hsid] using streamLive_stopStream t
  · simpa [hsid] using h t ht hsid

/-- C5: the export operation over the current records returns exactly the
records' text values in insertion order joined by single newline separators,
with no other formatting and no trailing newline: on texts
["A1", "B2", "C3"] it returns "A1\nB2\nC3", a single record exports as its
bare text, and appending a record appends exactly one "\n" plus that text. -/
theorem c5_exportText_format :
    exportText [⟨"i1", "A1", 0⟩, ⟨"i2", "B2", 1⟩, ⟨"i3", "C3", 2⟩] = "A1\nB2\nC3" ∧
    (∀ code : ScannedCode, exportText [code] = code.text) ∧
    (∀ (codes : List ScannedCode) (code : ScannedCode), codes ≠ [] →
      exportText (codes ++ [code]) = exportText codes ++ "\n" ++ code.text) := by
  refine ⟨by decide, fun code => rfl, ?_⟩
  intro codes code hne
  match codes with
  | c0 :: cs => simp [exportText, joinWith, List.foldl_append]

/-- C5 witness: the append law applied at a concrete nonempty record list. -/
theorem c5_exportText_format_witness :
    exportText ([⟨"i1", "A1", 0⟩, ⟨"i2", "B2", 1⟩] ++ [⟨"i3", "C3", 2⟩]) =
      exportText [⟨"i1", "A1", 0⟩, ⟨"i2", "B2", 1⟩] ++ "\n" ++ "C3" :=
  c5_exportText_format.2.2 [⟨"i1", "A1", 0⟩, ⟨"i2", "B2", 1⟩] ⟨"i3", "C3", 2⟩ (by decide)

/-- C10: invoking copy-all with an empty record list is a complete no-op:
no clipboard write is attempted, no notice is shown, and the component state
is unchanged, whatever the clipboard oracles would have answered. -/
theorem c10_copyAll_empty_noop (st : AppState) (clipboardOk execCommandOk : Bool)
    (h : st.scannedCodes = []) :
    copyAllStep st clipboardOk execCommandOk =
      (st, { clipboardWrite := none, notice := none }) := by
  simp [copyAllStep, copyAll, h]

/-- C10 witness: the no-op at the initial (empty) state. -/
theorem c10_copyAll_empty_noop_witness :
    copyAllStep initialState true true =
      (initialState, { clipboardWrite := none, notice := none }) :=
  c10_copyAll_empty_noop initialState true true (by decide)

/-- C6: preferred-device selection. The preferred device is the first one
whose (synthesized) label matches back/rear/environment case-insensitively
(`find?` returns the first match); with no match it is the last device when
more than one exists, else the first. In particular labels
["Front Camera", "Back Camera"] select "Back Camera", and two unlabeled
devices (labels synthesized to "Camera 1"/"Camera 2") select the last one. -/
theorem c6_preferred_device_selection :
    (∀ (first : CameraDevice) (rest : List CameraDevice) (cam : CameraDevice),
      (first :: rest).find? (fun c => labelMatchesBack c.label) = some cam →
      selectPreferred (first :: rest) = some cam) ∧
    (∀ (first : CameraDevice) (rest : List CameraDevice),
      (first :: rest).find? (fun c => labelMatchesBack c.label) = none →
      selectPreferred (first :: rest) =
        some (if (first :: rest).length > 1 then (first :: rest).getLastD first else first)) ∧
    selectPreferred (mkCameraList [⟨"d1", "Front Camera"⟩, ⟨"d2", "Back Camera"⟩]) =
      some ⟨"d2", "Back Camera"⟩ ∧
    selectPreferred (mkCameraList [⟨"d1", ""⟩, ⟨"d2", ""⟩]) = some ⟨"d2", "Camera 2"⟩ := by
  refine ⟨?_, ?_, by decide, by decide⟩
  · intro first rest cam h
    simp [selectPreferred, h]
  · intro first rest h
    simp [selectPreferred, h, apply_ite some]

/-- C6 witness: the two selection rules applied at concrete device lists. -/
theorem c6_preferred_device_selection_witness :
    selectPreferred [⟨"d1", "Front Camera"⟩, ⟨"d2", "Back Camera"⟩] =
      some ⟨"d2", "Back Camera"⟩ ∧
    selectPreferred [⟨"d1", "Camera 1"⟩, ⟨"d2", "Camera 2"⟩] =
      some (if ([⟨"d1", "Camera 1"⟩, ⟨"d2", "Camera 2"⟩] : List CameraDevice).length > 1 then
              ([⟨"d1", "Camera 1"⟩, ⟨"d2", "Camera 2"⟩] : List CameraDevice).getLastD
                ⟨"d1", "Camera 1"⟩
            else ⟨"d1", "Camera 1"⟩) :=
  ⟨c6_preferred_device_selection.1 ⟨"d1", "Front Camera"⟩ [⟨"d2", "Back Camera"⟩]
      ⟨"d2", "Back Camera"⟩ (by decide),
   c6_preferred_device_selection.2.1 ⟨"d1", "Camera 1"⟩ [⟨"d2", "Camera 2"⟩] (by decide)⟩

/-- C7: when device enumeration returns zero devices, discovery fails with the
user-visible no-devices message, the loading flag is cleared by the `finally`
block, and the scan records, scanning flag and camera selection are untouched,
so the session remains in a startable, non-crashed state and can retry. -/
theorem c7_no_devices_failure_state (st : AppState) (probe : Stream) :
    (loadCameras st (some probe) []).error =
      some "No camera devices found. Please connect a camera and refresh the page." ∧
    (loadCameras st (some probe) []).isLoading = false ∧
    (loadCameras st (some probe) []).scannedCodes = st.scannedCodes ∧
    (loadCameras st (some probe) []).isScanning = st.isScanning ∧
    (loadCameras st (some probe) []).availableCameras = st.availableCameras ∧
    (loadCameras st (some probe) []).selectedCameraId = st.selectedCameraId := by
  simp [loadCameras]

/-- C8: a "not found" decode condition is never logged; whenever the error
branch does log, the error name was a genuine (non-not-found) fault; and an
error-only callback invocation changes no user-visible session state — the
records, status, error banner, scanning flag and decode loop all stay as they
were, so no decode fault interrupts an active scanning session. -/
theorem c8_notfound_never_logged :
    (∀ (st : AppState) (name : String) (now : Nat) (rand : String),
      isNotFoundName name = true →
      (decodeCallback st none (some name) now rand).2 = false) ∧
    (∀ (st : AppState) (result : Option String) (name : String) (now : Nat) (rand : String),
      (decodeCallback st result (some name) now rand).2 = true →
      isNotFoundName name = false) ∧
    (∀ (st : AppState) (errName : Option String) (now : Nat) (rand : String),
      (decodeCallback st none errName now rand).1.scannedCodes = st.scannedCodes ∧
      (decodeCallback st none errName now rand).1.scanStatus = st.scanStatus ∧
      (decodeCallback st none errName now rand).1.error = st.error ∧
      (decodeCallback st none errName now rand).1.isScanning = st.isScanning ∧
      (decodeCallback st none errName now rand).1.readerDecoding = st.readerDecoding) := by
  refine ⟨?_, ?_, ?_⟩
  · intro st name now rand h
    cases hd : st.readerDecoding
    · simp [decodeCallback, hd]
    · cases hs : st.session with
      | none => simp [decodeCallback, hd, hs]
      | some sess => simp [decodeCallback, hd, hs, h]
  · intro st result name now rand h
    cases hd : st.readerDecoding
    · simp [decodeCallback, hd] at h
    · cases hs : st.session with
      | none => simp [decodeCallback, hd, hs] at h
      | some sess =>
        simp [decodeCallback, hd, hs] at h
        tauto
  · intro st errName now rand
    cases hd : st.readerDecoding
    · simp [decodeCallback, hd]
    · cases hs : st.session with
      | none => simp [decodeCallback, hd, hs]
      | some sess => simp [decodeCallback, hd, hs]

/-- C8 witness: a NotFoundException arriving during scanning is not logged. -/
theorem c8_notfound_never_logged_witness :
    (decodeCallback scanningState none (some "NotFoundException") 1000 "r").2 = false :=
  c8_notfound_never_logged.1 scanningState "NotFoundException" 1000 "r" (by decide)

/-- End state of the C1 failing run: one session started on an empty store,
the decoder reports text "X" at t = 1000 ms and again at t = 2600 ms (past the
1.5 s cooldown, i.e. a deliberate re-scan). -/
def c1TraceEnd : AppState :=
  (decodeCallback
    (decodeCallback scanningState (some "X") none 1000 "r1").1
    (some "X") none 2600 "r2").1

/-- C1: evaluation of the code at the failing input. Both decode events are
accepted because every duplicate check inside the callback reads the stale
closure snapshot of `scannedCodes` captured at session start (empty here), so
the store ends up with two records of equal text "X" — the uniqueness
invariant the claim states (and the source's own "avoid duplicates" comment
intends) is violated. -/
theorem c1_duplicate_text_reachable :
    c1TraceEnd.scannedCodes.map (fun code => code.text) = ["X", "X"] ∧
    ¬ c1TraceEnd.scannedCodes.Pairwise (fun a b => a.text ≠ b.text) := by
  decide

/-- State after the first accepted "X" of the C2 failing run, once the
transient "Barcode detected!" status has reverted to the steady ready text. -/
def c2Accepted : AppState :=
  statusRevertFires (decodeCallback scanningState (some "X") none 1000 "r1").1

/-- End state of the C2 failing run: the same text "X" arrives again at
t = 1100 ms, only 100 ms (< 1500 ms cooldown) after the accepted event. -/
def c2End : AppState := (decodeCallback c2Accepted (some "X") none 1100 "r2").1

/-- C2: evaluation of the code at the failing input. At the second event the
text "X" is already present in the record store and the cooldown has not
elapsed, so the claim requires complete suppression — no status change and no
store mutation. The code instead consults the stale session-start snapshot
(empty), so the cooldown guard does not fire: the status flips from the steady
ready message to "Barcode detected!" and a duplicate record is appended. -/
theorem c2_cooldown_duplicate_mutates_store :
    c2Accepted.scannedCodes.map (fun code => code.text) = ["X"] ∧
    c2Accepted.scanStatus = "Ready - Point camera at barcode" ∧
    c2End.scannedCodes.map (fun code => code.text) = ["X", "X"] ∧
    c2End.scanStatus = "Barcode detected!" := by
  decide

/-- C9 counterexample: id generation is `Date.now().toString()` plus a
`Math.random()` fragment; nothing prevents two records created in the same
millisecond from drawing the same fragment, in which case their ids coincide —
so "an id distinct from the id of every other record ever created" fails for
that generation environment. -/
theorem c9_id_collision_possible :
    ¬ (([((1700000000000 : Nat), "4fzyo82mv"), (1700000000000, "4fzyo82mv")].map
        (fun p => mkId p.1 p.2)).Pairwise (fun a b => a ≠ b)) := by
  decide

/-- Appending to a fixed string on the left is cancellable. -/
theorem string_append_left_cancel (s a b : String) (h : s ++ a = s ++ b) : a = b := by
  cases s with
  | mk sd =>
    cases a with
    | mk ad =>
      cases b with
      | mk bd =>
        have h2 : sd ++ ad = sd ++ bd := congrArg String.data h
        exact congrArg String.mk (List.append_cancel_left h2)

/-- C9 amended: within one millisecond, two accepted records receive distinct
ids provided their random fragments differ — uniqueness rests on the random
fragment and is collision-resistant rather than guaranteed. -/
theorem c9_distinct_rand_distinct_id (now : Nat) (r1 r2 : String) (h : r1 ≠ r2) :
    mkId now r1 ≠ mkId now r2 :=
  fun he => h (string_append_left_cancel (toString now) r1 r2 he)

/-- C9 witness: two same-millisecond records with different fragments. -/
theorem c9_distinct_rand_distinct_id_witness :
    mkId 1700000000000 "aaaaaaaaa" ≠ mkId 1700000000000 "baaaaaaaa" :=
  c9_distinct_rand_distinct_id 1700000000000 "aaaaaaaaa" "baaaaaaaa" (by decide)

/-- Stopping a stream id in a heap kills every track of the streams that
carry that id (the attached stream). -/
theorem mem_stopHeap_attached_dead (heap : List Stream) (sid : Nat) :
    ∀ s ∈ stopStreamInHeap heap sid, s.sid = sid → streamLive s = false := by
  intro s hs hsid
  rcases List.mem_map.1 hs with ⟨t, ht, rfl⟩
  by_cases h : t.sid = sid
  · simpa [h] using streamLive_stopStream t
  · simp [h] at hsid

/-- C3 amended: on every stop request with a stream attached, `stopScanning`
ends the decode loop and then releases the ATTACHED stream — the composition
`releaseStreamStep ∘ endDecodeStep` in that order, both unconditional — after
which the decode loop is off, the video element is detached, the scanning flag
is cleared, every track of the attached stream is dead, and the decode
callback is never invoked again: any further callback is the identity and logs
nothing. When the attached stream was the only live one (the normal
start/stop alternation), no live stream track remains at all; a stream leaked
by an earlier start-without-stop is not released. -/
theorem c3_stop_teardown_attached (st : AppState) (sid : Nat)
    (hsrc : st.videoSrcObject = some sid) :
    stopScanning st =
      { releaseStreamStep (endDecodeStep st) with isScanning := false, scanStatus := "" } ∧
    (stopScanning st).readerDecoding = false ∧
    (stopScanning st).videoSrcObject = none ∧
    (stopScanning st).isScanning = false ∧
    (∀ s ∈ (stopScanning st).streams, s.sid = sid → streamLive s = false) ∧
    ((∀ s ∈ st.streams, s.sid ≠ sid → streamLive s = false) →
      ∀ s ∈ (stopScanning st).streams, streamLive s = false) ∧
    (∀ (result errName : Option String) (now : Nat) (rand : String),
      decodeCallback (stopScanning st) result errName now rand = (stopScanning st, false)) := by
  have hstop : stopScanning st =
      { st with readerDecoding := false,
                streams := stopStreamInHeap st.streams sid,
                videoSrcObject := none,
                isScanning := false, scanStatus := "" } := by
    simp [stopScanning, releaseStreamStep, endDecodeStep, hsrc]
  refine ⟨rfl, ?_, ?_, ?_, ?_, ?_, ?_⟩
  · rw [hstop]
  · rw [hstop]
  · rw [hstop]
  · rw [hstop]
    exact mem_stopHeap_attached_dead st.streams sid
  · intro hothers
    rw [hstop]
    exact mem_stopHeap_dead st.streams sid hothers
  · intro result errName now rand
    rw [hstop]
    simp [decodeCallback]

/-- C3 amended witness: teardown applied to the concrete scanning state,
where the attached stream is the only live one. -/
theorem c3_stop_teardown_attached_witness :
    (stopScanning scanningState).readerDecoding = false ∧
    (∀ s ∈ (stopScanning scanningState).streams, streamLive s = false) :=
  ⟨(c3_stop_teardown_attached scanningState 0 (by decide)).2.1,
   (c3_stop_teardown_attached scanningState 0 (by decide)).2.2.2.2.2.1 (by decide)⟩

/-- State after a second start request issued in direct succession — no stop
in between — acquiring `streamB` while `streamA` is still attached and live. -/
def doubleStart : AppState := startScanning scanningState none [] (some streamB) none

/-- C3 counterexample: `doubleStart` is a reachable Scanning state (scanning
flag on, decode loop on) holding two live streams — `streamA` was replaced on
the video element by `streamB` without being stopped. A user stop request from
this state stops only the attached `streamB`, so after the
`Scanning → Stopped` transition a live stream track remains, refuting
"afterwards no live stream track remains active". -/
theorem c3_stop_after_double_start_leaves_live_track :
    doubleStart.isScanning = true ∧ doubleStart.readerDecoding = true ∧
    (stopScanning doubleStart).isScanning = false ∧
    (stopScanning doubleStart).streams.any streamLive = true := by
  decide

/-- C4 counterexample: two start requests in direct succession leave TWO
streams with live tracks, not exactly one. `startScanning` only assigns the
new stream to the video element (`video.srcObject = stream`); it never stops
the tracks of the previously attached stream, and detaching a `MediaStream`
does not stop it. Only `stopScanning` releases a stream. -/
theorem c4_double_start_two_live_streams : liveStreamCount doubleStart = 2 := by
  decide

/-- C4 amended: a restart through an explicit stop does own at most one live
stream — starting from a state with no live stream, the sequence
start–stop–start ends with exactly one live stream, because `stopScanning`
stops every track of the attached stream before the second acquisition. -/
theorem c4_restart_with_stop_single_stream (st : AppState) (s1 s2 : Stream)
    (hdead : ∀ s ∈ st.streams, streamLive s = false)
    (hcams : st.availableCameras.length ≠ 0)
    (hsel : st.selectedCameraId ≠ "")
    (hs2 : streamLive s2 = true) :
    liveStreamCount
      (startScanning (stopScanning (startScanning st none [] (some s1) none)) none []
        (some s2) none) = 1 := by
  have hnil : (stopStreamInHeap (st.streams ++ [s1]) s1.sid).filter streamLive = [] := by
    refine List.filter_eq_nil_iff.mpr (fun s hs => ?_)
    have hdead2 : ∀ x ∈ st.streams ++ [s1], x.sid ≠ s1.sid → streamLive x = false := by
      intro x hx hneq
      rcases List.mem_append.1 hx with hx1 | hx1
      · exact hdead x hx1
      · rcases List.mem_singleton.1 hx1 with rfl
        exact absurd rfl hneq
    simp [mem_stopHeap_dead (st.streams ++ [s1]) s1.sid hdead2 s hs]
  simp [startScanning, startScanningBody, stopScanning, endDecodeStep, releaseStreamStep,
    hcams, hsel, liveStreamCount, List.filter_append, hnil, List.filter_cons, hs2]

/-- C4 amended witness: start–stop–start on the concrete one-camera state. -/
theorem c4_restart_with_stop_single_stream_witness :
    liveStreamCount
      (startScanning (stopScanning (startScanning oneCameraState none [] (some streamA) none))
        none [] (some streamB) none) = 1 :=
  c4_restart_with_stop_single_stream oneCameraState streamA streamB (by decide) (by decide)
    (by decide) (by decide)

end BarcodeScanner
